import Mathlib

/-!
Verification of the localsend-rs core against its specification.

The definitions below are shallow embeddings of the Rust sources:
  * `localsend-proto/src/constants.rs`, `device.rs`, `route.rs`, `dto/*`
  * `localsend-lib/src/server/controller.rs`, `server/error.rs`
  * `localsend-lib/src/receive/*`, `send/send_file.rs`
  * `localsend-lib/src/scanner/multicast.rs`

Machine integers (`u16`, `u64`) are embedded as `Fin` of the corresponding
range; strings stay `String`; `HashMap` becomes an association list with
`lookup`; fallible Rust code returns `Option`/`Except`; the nondeterministic
environment (UUID generation, lock availability, UI replies, the request
body stream, socket events) is passed in explicitly as oracle data.
-/

set_option autoImplicit false

namespace LocalSend

/-! ## Protocol constants — localsend-proto/src/constants.rs -/

def PROTOCOL_VERSION_2 : String := "2.0"

def PROTOCOL_VERSION_1 : String := "1.0"

def FALLBACK_PROTOCOL_VERSION : String := PROTOCOL_VERSION_1

def DEFAULT_PORT : Fin 65536 := ⟨53317, by decide⟩

/-! ## Device — localsend-proto/src/device.rs -/

inductive DeviceType where
  | Mobile
  | Desktop
  | Web
  | Headless
  | Server
deriving DecidableEq, Repr

/-- `impl Default for DeviceType` returns `Desktop`. -/
def DeviceType.defaultValue : DeviceType := .Desktop

structure Device where
  ip : String
  version : String
  port : Fin 65536
  https : Bool
  fingerprint : String
  alias_ : String
  device_model : Option String
  device_type : DeviceType
  download : Bool
deriving DecidableEq, Repr

/-! ## Route resolver — localsend-proto/src/route.rs -/

inductive ApiRoute where
  | PrepareUpload
  | Upload
  | Cancel
deriving DecidableEq, Repr

namespace ApiRoute

/-- `ApiRoute::_v1` -/
def v1Path : ApiRoute → String
  | .PrepareUpload => "send-request"
  | .Upload => "send"
  | .Cancel => "cancel"

/-- `ApiRoute::_v2`; the wildcard arm falls back to `_v1`. -/
def v2Path : ApiRoute → String
  | .PrepareUpload => "prepare-upload"
  | .Upload => "upload"
  | r => r.v1Path

/-- `ApiRoute::route`: only the exact version string "1.0" selects the v1
path; every other version string takes the v2 branch. -/
def route (r : ApiRoute) (version : String) : String :=
  let path :=
    if version = PROTOCOL_VERSION_1 then "/v1/" ++ r.v1Path
    else "/v2/" ++ r.v2Path
  "/api/localsend" ++ path

/-- `ApiRoute::target_raw` -/
def target_raw (r : ApiRoute) (ip : String) (port : Fin 65536) (https : Bool)
    (version : String) : String :=
  let protocol := if https then "https" else "http"
  protocol ++ "://" ++ ip ++ ":" ++ toString port.val ++ r.route version

/-- `ApiRoute::target` -/
def target (r : ApiRoute) (d : Device) : String :=
  r.target_raw d.ip d.port d.https d.version

end ApiRoute

/-! ## Receive errors and their HTTP mapping — localsend-lib/src/receive/receive_session.rs
and localsend-lib/src/server/error.rs -/

inductive ReceiveError where
  | EmptyFiles
  | InvalidIp (ip : String)
  | InvalidParameters
  | InvalidRecipient
  | InvalidSessionId
  | InvalidServerState
  | InvalidToken
  | NothingSelected
  | SaveFileFailed
  | SessionBlocked
  | SessionDeclined
  | SessionNotExists
  | Cancelled
deriving DecidableEq, Repr

/-- `impl From<&ReceiveError> for StatusCode` in server/error.rs. -/
def ReceiveError.statusCode : ReceiveError → Nat
  | .Cancelled => 200
  | .EmptyFiles => 400
  | .InvalidIp _ => 403
  | .InvalidParameters => 400
  | .InvalidRecipient => 409
  | .InvalidServerState => 500
  | .InvalidSessionId => 403
  | .InvalidToken => 403
  | .NothingSelected => 204
  | .SaveFileFailed => 500
  | .SessionBlocked => 409
  | .SessionDeclined => 403
  | .SessionNotExists => 409

/-! ## JSON model for the serde embedding

The DTOs of `localsend-proto` carry only scalar fields, so a JSON document
is embedded as a flat value type plus `JsonObj` for the one object level.
serde with `rename_all = "camelCase"` and no `skip_serializing_if` emits
every field, `None` as `null`; deserializers accept a missing optional
field, `null`, or a value. -/

inductive Json where
  | null
  | bool (b : Bool)
  | num (n : Nat)
  | str (s : String)
deriving DecidableEq, Repr

abbrev JsonObj := List (String × Json)

/-- serde serialization of `Option<T>`: `None` becomes `null`. -/
def Json.ofOption {α : Type} (f : α → Json) : Option α → Json
  | none => .null
  | some a => f a

def Json.asStr : Json → Option String
  | .str s => some s
  | _ => none

def Json.asBool : Json → Option Bool
  | .bool b => some b
  | _ => none

def Json.asU16 : Json → Option (Fin 65536)
  | .num n => if h : n < 65536 then some ⟨n, h⟩ else none
  | _ => none

def Json.asU64 : Json → Option (Fin 18446744073709551616)
  | .num n => if h : n < 18446744073709551616 then some ⟨n, h⟩ else none
  | _ => none

/-- Reading a required field: missing field or wrong shape is an error. -/
def reqField {α : Type} (g : Json → Option α) (o : JsonObj) (k : String) :
    Option α :=
  (List.lookup k o).bind g

/-- Reading an `Option<T>` field: absent or `null` is `none`; a present
value must parse. -/
def optRead {α : Type} (g : Json → Option α) : Option Json → Option (Option α)
  | none => some none
  | some .null => some none
  | some v => (g v).map some

def optField {α : Type} (g : Json → Option α) (o : JsonObj) (k : String) :
    Option (Option α) :=
  optRead g (List.lookup k o)

/-! ## ProtocolType — localsend-proto/src/dto/protocol_type.rs -/

/-- Modelled from the spec: the source file
`localsend-proto/src/dto/protocol_type.rs` is not present (only its module
declaration and users are).  The spec gives `protocol? ∈ {http,https}`, a
serde unit enum serialized in lowercase like the other enums. -/
inductive ProtocolType where
  | Http
  | Https
deriving DecidableEq, Repr

def ProtocolType.serialize : ProtocolType → Json
  | .Http => .str "http"
  | .Https => .str "https"

def ProtocolType.deserialize : Json → Option ProtocolType
  | .str "http" => some .Http
  | .str "https" => some .Https
  | _ => none

/-! ## DeviceType serde — localsend-proto/src/device.rs -/

def DeviceType.serialize : DeviceType → Json
  | .Mobile => .str "mobile"
  | .Desktop => .str "desktop"
  | .Web => .str "web"
  | .Headless => .str "headless"
  | .Server => .str "server"

def DeviceType.deserialize : Json → Option DeviceType
  | .str "mobile" => some .Mobile
  | .str "desktop" => some .Desktop
  | .str "web" => some .Web
  | .str "headless" => some .Headless
  | .str "server" => some .Server
  | _ => none

/-! ## FileType and FileDto — localsend-proto/src/dto/file_dto.rs -/

inductive FileType where
  | Image
  | Video
  | Pdf
  | Text
  | Apk
  | Other
deriving DecidableEq, Repr

/-- `impl Default for FileType` returns `Other`. -/
def FileType.defaultValue : FileType := .Other

/-- Splits a character list at the first `/`, returning the part before it
and the part after it. -/
def mimeSplitAux (ty : List Char) : List Char → Option (List Char × List Char)
  | [] => none
  | c :: rest =>
    if c = '/' then some (ty.reverse, rest) else mimeSplitAux (c :: ty) rest

/-- Model of `mime_guess::Mime::from_str` (the `mime` crate), reduced to the
essence needed here: a MIME string must contain a `/` separating a nonempty
type from a nonempty, slash-free subtype; in particular a string without a
slash is rejected. -/
def mimeParse (s : String) : Option (String × String) :=
  match mimeSplitAux [] s.toList with
  | none => none
  | some (t, sub) =>
    if t.isEmpty ∨ sub.isEmpty ∨ sub.contains '/' then none
    else some (⟨t⟩, ⟨sub⟩)

/-- `impl From<Mime> for FileType`, arms in source order. -/
def FileType.fromMime : String × String → FileType
  | (t, sub) =>
    if t = "image" then .Image
    else if t = "video" then .Video
    else if t = "application" ∧ sub = "pdf" then .Pdf
    else if t = "text" then .Text
    else if t = "application" ∧ sub = "vnd.android.package-archive" then .Apk
    else .Other

/-- `#[serde(rename_all = "lowercase")]` on the unit enum. -/
def FileType.serialize : FileType → Json
  | .Image => .str "image"
  | .Video => .str "video"
  | .Pdf => .str "pdf"
  | .Text => .str "text"
  | .Apk => .str "apk"
  | .Other => .str "other"

/-- The manual `Deserialize` impl: deserialize a `String`, parse it as a
MIME type, map through `From<Mime>`, and fall back to the default `Other`
when the MIME parse fails. -/
def FileType.deserialize : Json → Option FileType
  | .str s =>
    some (match mimeParse s with
      | some m => FileType.fromMime m
      | none => FileType.defaultValue)
  | _ => none

structure FileDto where
  id : String
  file_name : String
  size : Fin 18446744073709551616
  file_type : FileType
  hash : Option String
  preview : Option String
deriving DecidableEq, Repr

def FileDto.serialize (f : FileDto) : JsonObj :=
  [("id", .str f.id),
   ("fileName", .str f.file_name),
   ("size", .num f.size.val),
   ("fileType", f.file_type.serialize),
   ("hash", Json.ofOption .str f.hash),
   ("preview", Json.ofOption .str f.preview)]

def FileDto.deserialize (o : JsonObj) : Option FileDto := do
  let id ← reqField Json.asStr o "id"
  let file_name ← reqField Json.asStr o "fileName"
  let size ← reqField Json.asU64 o "size"
  let file_type ← reqField FileType.deserialize o "fileType"
  let hash ← optField Json.asStr o "hash"
  let preview ← optField Json.asStr o "preview"
  pure { id, file_name, size, file_type, hash, preview }

/-! ## MulticastDto — localsend-proto/src/dto/multicast_dto.rs -/

structure MulticastDto where
  alias_ : String
  version : Option String
  device_model : Option String
  device_type : Option DeviceType
  fingerprint : String
  port : Option (Fin 65536)
  protocol : Option ProtocolType
  download : Option Bool
  announcement : Option Bool
  announce : Option Bool
deriving DecidableEq, Repr

/-- `MulticastDto::v1` -/
def MulticastDto.v1 (alias_ : String) (device_model : Option String)
    (device_type : DeviceType) (fingerprint : String)
    (announcement : Bool) : MulticastDto :=
  { alias_,
    version := none,
    device_model,
    device_type := some device_type,
    fingerprint,
    port := none,
    protocol := none,
    download := none,
    announcement := some announcement,
    announce := none }

/-- `MulticastDto::v2` -/
def MulticastDto.v2 (alias_ : String) (device_model : Option String)
    (device_type : DeviceType) (fingerprint : String) (port : Fin 65536)
    (announcement : Bool) : MulticastDto :=
  { alias_,
    version := some PROTOCOL_VERSION_2,
    device_model,
    device_type := some device_type,
    fingerprint,
    port := some port,
    protocol := some ProtocolType.Http,
    download := none,
    announcement := some announcement,
    announce := none }

/-- `MulticastDto::to_device` -/
def MulticastDto.to_device (d : MulticastDto) (ip : String)
    (own_port : Fin 65536) (own_https : Bool) : Device :=
  { ip,
    version := d.version.getD FALLBACK_PROTOCOL_VERSION,
    port := d.port.getD own_port,
    https := (d.protocol.map (fun p => p == ProtocolType.Https)).getD own_https,
    fingerprint := d.fingerprint,
    alias_ := d.alias_,
    device_model := d.device_model,
    device_type := d.device_type.getD DeviceType.defaultValue,
    download := d.download.getD false }

def MulticastDto.serialize (d : MulticastDto) : JsonObj :=
  [("alias", .str d.alias_),
   ("version", Json.ofOption .str d.version),
   ("deviceModel", Json.ofOption .str d.device_model),
   ("deviceType", Json.ofOption DeviceType.serialize d.device_type),
   ("fingerprint", .str d.fingerprint),
   ("port", Json.ofOption (fun p => .num p.val) d.port),
   ("protocol", Json.ofOption ProtocolType.serialize d.protocol),
   ("download", Json.ofOption .bool d.download),
   ("announcement", Json.ofOption .bool d.announcement),
   ("announce", Json.ofOption .bool d.announce)]

def MulticastDto.deserialize (o : JsonObj) : Option MulticastDto := do
  let alias_ ← reqField Json.asStr o "alias"
  let version ← optField Json.asStr o "version"
  let device_model ← optField Json.asStr o "deviceModel"
  let device_type ← optField DeviceType.deserialize o "deviceType"
  let fingerprint ← reqField Json.asStr o "fingerprint"
  let port ← optField Json.asU16 o "port"
  let protocol ← optField ProtocolType.deserialize o "protocol"
  let download ← optField Json.asBool o "download"
  let announcement ← optField Json.asBool o "announcement"
  let announce ← optField Json.asBool o "announce"
  pure { alias_, version, device_model, device_type, fingerprint, port,
         protocol, download, announcement, announce }

/-! ## RegisterDto — localsend-proto/src/dto/register_dto.rs -/

structure RegisterDto where
  alias_ : String
  version : Option String
  device_model : Option String
  device_type : Option DeviceType
  fingerprint : String
  port : Option (Fin 65536)
  protocol : Option ProtocolType
  download : Option Bool
deriving DecidableEq, Repr

/-- `RegisterDto::to_device` -/
def RegisterDto.to_device (d : RegisterDto) (ip : String)
    (own_port : Fin 65536) (own_https : Bool) : Device :=
  { ip,
    version := d.version.getD FALLBACK_PROTOCOL_VERSION,
    port := d.port.getD own_port,
    https := (d.protocol.map (fun p => p == ProtocolType.Https)).getD own_https,
    fingerprint := d.fingerprint,
    alias_ := d.alias_,
    device_model := d.device_model,
    device_type := d.device_type.getD DeviceType.defaultValue,
    download := d.download.getD false }

def RegisterDto.serialize (d : RegisterDto) : JsonObj :=
  [("alias", .str d.alias_),
   ("version", Json.ofOption .str d.version),
   ("deviceModel", Json.ofOption .str d.device_model),
   ("deviceType", Json.ofOption DeviceType.serialize d.device_type),
   ("fingerprint", .str d.fingerprint),
   ("port", Json.ofOption (fun p => .num p.val) d.port),
   ("protocol", Json.ofOption ProtocolType.serialize d.protocol),
   ("download", Json.ofOption .bool d.download)]

def RegisterDto.deserialize (o : JsonObj) : Option RegisterDto := do
  let alias_ ← reqField Json.asStr o "alias"
  let version ← optField Json.asStr o "version"
  let device_model ← optField Json.asStr o "deviceModel"
  let device_type ← optField DeviceType.deserialize o "deviceType"
  let fingerprint ← reqField Json.asStr o "fingerprint"
  let port ← optField Json.asU16 o "port"
  let protocol ← optField ProtocolType.deserialize o "protocol"
  let download ← optField Json.asBool o "download"
  pure { alias_, version, device_model, device_type, fingerprint, port,
         protocol, download }

/-! ## Multicast scanner — localsend-lib/src/scanner/multicast.rs

`scan` polls the socket in a loop.  A poll is embedded as a `RecvEvent`:
either `try_recv_from` returned `Ok` with a datagram (payload modelled as
`Option JsonObj`, `none` for bytes that are not a JSON object), or it
returned `Err` (the `else` branch of the `if let`, which sleeps 100 ms and
polls again).  The deadline-driven loop is embedded as a fold over the
finite list of polls the loop performs. -/

inductive RecvEvent where
  | datagram (payload : Option JsonObj) (ip : String) (port : Fin 65536)
  | recvErr
deriving Repr

/-- One iteration of the `while` loop body of `MulticastDeviceScanner::scan`.
`Except.error ()` is the `?` on `serde_json::from_slice`, which aborts the
whole scan with the converted serde error. -/
def scanStep (selfFp : String) (devices : List Device) :
    RecvEvent → Except Unit (List Device)
  | .recvErr => .ok devices
  | .datagram payload ip port =>
    match payload.bind RegisterDto.deserialize with
    | none => .error ()
    | some dto =>
      if dto.fingerprint = selfFp then .ok devices
      else
        let device := dto.to_device ip port false
        if devices.contains device then .ok devices
        else .ok (devices ++ [device])

/-- `MulticastDeviceScanner::scan`, folded over the polls it performs. -/
def scan (selfFp : String) : List RecvEvent → List Device →
    Except Unit (List Device)
  | [], devices => .ok devices
  | e :: es, devices =>
    match scanStep selfFp devices e with
    | .error err => .error err
    | .ok ds => scan selfFp es ds

/-- Outcome of `UdpSocket::send_to` as seen by `send_announcement`. -/
inductive SendOutcome where
  | sent (n : Nat)
  | sockErr
deriving DecidableEq, Repr

/-- `MulticastDeviceScanner::send_announcement`: the send result is turned
into an `Option` with `.ok()` and then `assert!(size == Some(len))`.
`none` models the panic of a failed assertion, `some ()` a normal return. -/
def send_announcement (msgLen : Nat) (outcome : SendOutcome) : Option Unit :=
  let size : Option Nat :=
    match outcome with
    | .sent n => some n
    | .sockErr => none
  if size = some msgLen then some () else none

/-! ## Receive engine state — localsend-lib/src/receive/*, server/mod.rs

`tokio::sync::mpsc::Sender` handles cannot be embedded; only their
presence matters to the control flow, so `progress_tx` is `Option Unit`. -/

inductive FileStatus where
  | Queue
  | Skipped
  | Sending
  | Failed
  | Finished
deriving DecidableEq, Repr

structure ReceivingFile where
  file : FileDto
  status : FileStatus
  token : Option String
deriving DecidableEq, Repr

inductive ReceiveSessionStatus where
  | Waiting
  | Sending
deriving DecidableEq, Repr

structure ReceiveSession where
  session_id : String
  status : ReceiveSessionStatus
  sender : Device
  files : List (String × ReceivingFile)
  destination_directory : String
  progress_tx : Option Unit
deriving DecidableEq, Repr

structure Settings where
  destination : String
  quick_save : Bool
deriving DecidableEq, Repr

/-- The parts of `ServerState` the verified endpoints read or write; the
channel handles (`server_tx`, `client_rx`) appear as oracle inputs instead,
and `send_session` is untouched by the prepare-upload and upload paths. -/
structure ServerState where
  settings : Settings
  receive_session : Option ReceiveSession
deriving DecidableEq, Repr

/-- In-place update of a value in an association list (`get_mut` + write). -/
def updateAssoc {α : Type} (l : List (String × α)) (k : String) (v : α) :
    List (String × α) :=
  l.map (fun p => if p.1 = k then (k, v) else p)

/-! ## Upload endpoint — localsend-lib/src/server/controller.rs, `upload`
and its `save_file` closure

The request body stream is embedded as a list of read results: `chunk len
writeOk` is `reader.read` returning `Ok(len)` together with the result of
the subsequent `file_buf.write(..).unwrap()`; `readErr` is `reader.read`
returning `Err`.  `Ok(0)` (end of stream) is `chunk 0 _`, which breaks the
loop.  `createOk`/`flushOk` are the results of `File::create` (with
`create_dir_all`) and the final `flush`. -/

inductive StreamStep where
  | chunk (len : Nat) (writeOk : Bool)
  | readErr
deriving DecidableEq, Repr

inductive SaveOutcome where
  | ok (position : Nat)
  | createErr
  | flushErr
  | cancelled
  | panicked
deriving DecidableEq, Repr

/-- The read/write loop of the `save_file` closure.  A read error deletes
the partial file and returns `Err(ReceiveError::Cancelled)` (`cancelled`);
a failed write is `.unwrap()`ed, i.e. panics (`panicked`). -/
def saveLoop (flushOk : Bool) (position : Nat) : List StreamStep → SaveOutcome
  | [] => if flushOk then .ok position else .flushErr
  | .chunk len writeOk :: rest =>
    if len = 0 then (if flushOk then .ok position else .flushErr)
    else if writeOk then saveLoop flushOk (position + len) rest
    else .panicked
  | .readErr :: _ => .cancelled

/-- The `save_file` closure: directory/file creation errors propagate as
plain IO errors (`createErr`) before the loop runs. -/
def save_file (createOk flushOk : Bool) (steps : List StreamStep) :
    SaveOutcome :=
  if createOk then saveLoop flushOk 0 steps else .createErr

inductive UploadResult where
  | ok
  | err (e : ReceiveError)
  | panicked
deriving DecidableEq, Repr

/-- Result of one call of the `upload` handler: the HTTP-level result (or a
task panic), the shared state it leaves behind, and whether the partially
written destination file was deleted. -/
structure UploadOutcome where
  result : UploadResult
  state : ServerState
  deletedPartial : Bool
deriving DecidableEq, Repr

/-- The v2-only sessionId validation block of `upload`. -/
def checkSessionId (v2 : Bool) (query : List (String × String))
    (sess : ReceiveSession) : Option ReceiveError :=
  if v2 then
    match List.lookup "sessionId" query with
    | none => some .InvalidParameters
    | some sid => if sid ≠ sess.session_id then some .InvalidSessionId else none
  else none

/-- The `upload` handler.  In this sequential embedding no other task runs
between releasing and re-acquiring the lock, so the `ok_or(Cancelled)` /
`ok_or(InvalidToken)` re-fetches after the stream always succeed. -/
def upload (addr_ip : String) (query : List (String × String))
    (steps : List StreamStep) (createOk flushOk : Bool)
    (state : ServerState) (v2 : Bool) : UploadOutcome :=
  match state.receive_session with
  | none => ⟨.err .SessionNotExists, state, false⟩
  | some sess =>
    if addr_ip ≠ sess.sender.ip then ⟨.err (.InvalidIp addr_ip), state, false⟩
    else if sess.status ≠ .Sending then ⟨.err .InvalidRecipient, state, false⟩
    else
      match List.lookup "fileId" query with
      | none => ⟨.err .InvalidParameters, state, false⟩
      | some file_id =>
        match List.lookup "token" query with
        | none => ⟨.err .InvalidParameters, state, false⟩
        | some token =>
          match checkSessionId v2 query sess with
          | some e => ⟨.err e, state, false⟩
          | none =>
            match List.lookup file_id sess.files with
            | none => ⟨.err .InvalidToken, state, false⟩
            | some rf =>
              match rf.token with
              | none => ⟨.err .InvalidToken, state, false⟩
              | some stored =>
                if token ≠ stored then ⟨.err .InvalidToken, state, false⟩
                else
                  let rf' := { rf with status := .Sending, token := none }
                  let sess' :=
                    { sess with files := updateAssoc sess.files file_id rf' }
                  let state' := { state with receive_session := some sess' }
                  match save_file createOk flushOk steps with
                  | .panicked => ⟨.panicked, state', false⟩
                  | res =>
                    let success := match res with | .ok _ => true | _ => false
                    let deleted := res = SaveOutcome.cancelled
                    let rf'' := { rf' with
                      status := if success then .Finished else .Failed }
                    let files'' := updateAssoc sess'.files file_id rf''
                    let finish := files''.all fun p =>
                      p.2.status == FileStatus.Finished ||
                      p.2.status == FileStatus.Failed
                    let rs : Option ReceiveSession :=
                      if finish then none
                      else some { sess' with files := files'' }
                    let state'' := { state with receive_session := rs }
                    ⟨if success then .ok else .err .SaveFileFailed,
                     state'', decide deleted⟩

/-! ## prepare-upload endpoint — controller.rs, `prepare_upload`

Nondeterministic inputs of one call (lock availability, the UUIDs drawn,
the UI's answer on the channel) travel in the `PrepareAttempt` record.
The `Guard` drop handler, which removes a session still in `Waiting` when
control leaves the endpoint, is applied on the error returns. -/

inductive ClientMessage where
  | FilesSelected (files : List FileDto)
  | Declined
deriving DecidableEq, Repr

structure PrepareUploadResponseDto where
  session_id : String
  files : List (String × String)
deriving DecidableEq, Repr

structure PrepareAttempt where
  lockFree : Bool
  info : RegisterDto
  files : List (String × FileDto)
  addr_ip : String
  session_id : String
  uiReply : Option ClientMessage
  tokenGen : Nat → String

/-- `prepare_upload`.  `lockFree` is the outcome of `try_lock`; `session_id`
and `tokenGen` are the UUIDv4 draws; `uiReply` is what `client_rx.recv()`
yields (`none` when the channel is closed).  The `Guard` makes every error
return leave no `Waiting` session behind. -/
def prepare_upload (a : PrepareAttempt) (st : ServerState) :
    Except ReceiveError PrepareUploadResponseDto × ServerState :=
  if ¬ a.lockFree then (.error .SessionBlocked, st)
  else if st.receive_session.isSome then (.error .SessionBlocked, st)
  else if a.files.isEmpty then (.error .EmptyFiles, st)
  else
    let sender := a.info.to_device a.addr_ip DEFAULT_PORT false
    let filesList := a.files.map (·.2)
    let selection : Option Unit × Option (List FileDto) :=
      if st.settings.quick_save then (none, some filesList)
      else
        match a.uiReply with
        | none => (none, none)
        | some (.FilesSelected fs) => (some (), some fs)
        | some .Declined => (none, none)
    match a.uiReply, st.settings.quick_save with
    | none, false =>
      -- channel closed: error return; the armed Guard removes the
      -- still-Waiting session, so the state keeps no session
      (.error .NothingSelected, { st with receive_session := none })
    | _, _ =>
      match selection.2 with
      | none =>
        -- UI declined: the session is removed explicitly
        (.error .SessionDeclined, { st with receive_session := none })
      | some sel =>
        if sel.isEmpty then
          (.error .NothingSelected, { st with receive_session := none })
        else
          let files := (sel.enum).map fun p =>
            (p.2.id, ReceivingFile.mk p.2 .Queue (some (a.tokenGen p.1)))
          let session : ReceiveSession :=
            { session_id := a.session_id,
              status := .Sending,
              sender,
              files,
              destination_directory := st.settings.destination,
              progress_tx := selection.1 }
          let dto : PrepareUploadResponseDto :=
            { session_id := a.session_id,
              files := files.map fun p => (p.1, (p.2.token).getD "") }
          (.ok dto, { st with receive_session := some session })

/-- Folding a sequence of prepare-upload calls over the shared state. -/
def runPrepares : List PrepareAttempt → ServerState →
    List (Except ReceiveError PrepareUploadResponseDto) × ServerState
  | [], st => ([], st)
  | a :: as, st =>
    let r := prepare_upload a st
    let rest := runPrepares as r.2
    (r.1 :: rest.1, rest.2)

def isOkResult {ε α : Type} : Except ε α → Bool
  | .ok _ => true
  | .error _ => false

def countOk {ε α : Type} (rs : List (Except ε α)) : Nat :=
  (rs.filter isOkResult).length
/-! ## Concrete example values used by witnesses and counterexamples -/

def exFileDto : FileDto :=
  { id := "F", file_name := "hello.txt", size := ⟨5, by decide⟩,
    file_type := .Text, hash := none, preview := none }

def exFileDto2 : FileDto :=
  { id := "G", file_name := "b.txt", size := ⟨3, by decide⟩,
    file_type := .Text, hash := none, preview := none }

def exSender : Device :=
  { ip := "10.0.0.2", version := "2.0", port := DEFAULT_PORT, https := false,
    fingerprint := "peer-fp", alias_ := "Peer", device_model := none,
    device_type := .Desktop, download := false }

def exSession : ReceiveSession :=
  { session_id := "S", status := .Sending, sender := exSender,
    files := [("F", ⟨exFileDto, .Queue, some "tok"⟩)],
    destination_directory := ".", progress_tx := none }

def exState : ServerState :=
  { settings := { destination := ".", quick_save := true },
    receive_session := some exSession }

def exSession2 : ReceiveSession :=
  { session_id := "S", status := .Sending, sender := exSender,
    files := [("F", ⟨exFileDto, .Queue, some "tok"⟩),
              ("G", ⟨exFileDto2, .Queue, some "tok2"⟩)],
    destination_directory := ".", progress_tx := none }

def exState2 : ServerState :=
  { settings := { destination := ".", quick_save := true },
    receive_session := some exSession2 }

/-- `exState2` after file "F" has been uploaded successfully. -/
def exSessionPost : ReceiveSession :=
  { session_id := "S", status := .Sending, sender := exSender,
    files := [("F", ⟨exFileDto, .Finished, none⟩),
              ("G", ⟨exFileDto2, .Queue, some "tok2"⟩)],
    destination_directory := ".", progress_tx := none }

def exStatePost : ServerState :=
  { settings := { destination := ".", quick_save := true },
    receive_session := some exSessionPost }

/-- A well-formed serialized `RegisterDto` carrying only required fields. -/
def goodRegObj : JsonObj :=
  [("alias", .str "Peer"), ("fingerprint", .str "other")]

/-- The device `goodRegObj` maps to when received from 10.0.0.2:53317. -/
def goodPeerDevice : Device :=
  { ip := "10.0.0.2", version := "1.0", port := DEFAULT_PORT, https := false,
    fingerprint := "other", alias_ := "Peer", device_model := none,
    device_type := .Desktop, download := false }

def exReg : RegisterDto :=
  { alias_ := "Peer", version := some "2.0", device_model := none,
    device_type := some .Desktop, fingerprint := "peer-fp",
    port := some DEFAULT_PORT, protocol := some .Http,
    download := some false }

def exAttempt : PrepareAttempt :=
  { lockFree := false, info := exReg, files := [("F", exFileDto)],
    addr_ip := "10.0.0.2", session_id := "S", uiReply := none,
    tokenGen := fun _ => "tok" }

def exStateEmpty : ServerState :=
  { settings := { destination := ".", quick_save := true },
    receive_session := none }

/-! ## Round-trip helper lemmas for the serde embedding -/

theorem optRead_ofOption {α : Type} (f : α → Json) (g : Json → Option α)
    (hfg : ∀ a, g (f a) = some a) (hnull : ∀ a, f a ≠ .null) (x : Option α) :
    optRead g (some (Json.ofOption f x)) = some x := by
  cases x with
  | none => rfl
  | some a =>
    have h := hfg a
    simp only [Json.ofOption]
    cases hfa : f a with
    | null => exact absurd hfa (hnull a)
    | bool b => rw [hfa] at h; simp [optRead, h]
    | num n => rw [hfa] at h; simp [optRead, h]
    | str s => rw [hfa] at h; simp [optRead, h]

theorem optRead_str (x : Option String) :
    optRead Json.asStr (some (Json.ofOption Json.str x)) = some x :=
  optRead_ofOption Json.str Json.asStr (fun _ => rfl)
    (fun _ h => Json.noConfusion h) x

theorem optRead_bool (x : Option Bool) :
    optRead Json.asBool (some (Json.ofOption Json.bool x)) = some x :=
  optRead_ofOption Json.bool Json.asBool (fun _ => rfl)
    (fun _ h => Json.noConfusion h) x

theorem optRead_u16 (x : Option (Fin 65536)) :
    optRead Json.asU16 (some (Json.ofOption (fun p => Json.num p.val) x)) =
      some x :=
  optRead_ofOption _ _ (fun p => by simp [Json.asU16, p.isLt])
    (fun _ h => Json.noConfusion h) x

theorem optRead_deviceType (x : Option DeviceType) :
    optRead DeviceType.deserialize
      (some (Json.ofOption DeviceType.serialize x)) = some x :=
  optRead_ofOption _ _ (fun t => by cases t <;> rfl)
    (fun t => by cases t <;> exact fun h => Json.noConfusion h) x

theorem optRead_protocolType (x : Option ProtocolType) :
    optRead ProtocolType.deserialize
      (some (Json.ofOption ProtocolType.serialize x)) = some x :=
  optRead_ofOption _ _ (fun t => by cases t <;> rfl)
    (fun t => by cases t <;> exact fun h => Json.noConfusion h) x

/-- Every `FileType` serializes to its lowercase variant name, which is not
a valid MIME string, so the manual deserializer falls back to `Other`. -/
theorem fileType_deserialize_serialize (t : FileType) :
    FileType.deserialize t.serialize = some FileType.Other := by
  cases t <;> rfl

theorem mc_roundtrip (d : MulticastDto) :
    MulticastDto.deserialize d.serialize = some d := by
  obtain ⟨a, v, dm, dt, fp, p, pr, dl, ann, anc⟩ := d
  simp only [MulticastDto.serialize, MulticastDto.deserialize, reqField,
    optField, List.lookup, bind, Option.bind, String.reduceBEq,
    beq_self_eq_true, Json.asStr, optRead_str, optRead_bool, optRead_u16,
    optRead_deviceType, optRead_protocolType, Option.pure_def]

theorem reg_roundtrip (d : RegisterDto) :
    RegisterDto.deserialize d.serialize = some d := by
  obtain ⟨a, v, dm, dt, fp, p, pr, dl⟩ := d
  simp only [RegisterDto.serialize, RegisterDto.deserialize, reqField,
    optField, List.lookup, bind, Option.bind, String.reduceBEq,
    beq_self_eq_true, Json.asStr, optRead_str, optRead_bool, optRead_u16,
    optRead_deviceType, optRead_protocolType, Option.pure_def]

theorem filedto_roundtrip (f : FileDto) :
    FileDto.deserialize f.serialize = some { f with file_type := .Other } := by
  obtain ⟨i, fname, sz, ft, h, pv⟩ := f
  simp only [FileDto.serialize, FileDto.deserialize, reqField,
    optField, List.lookup, bind, Option.bind, String.reduceBEq,
    beq_self_eq_true, Json.asStr, Json.asU64, sz.isLt, dite_true,
    Fin.eta, fileType_deserialize_serialize, optRead_str, Option.pure_def]

/-! ## Helper lemmas about the save loop and association-list update -/

theorem saveLoop_write_failure_panics (fok : Bool) (pre : List StreamStep)
    (len : Nat) (rest : List StreamStep)
    (hpre : ∀ s ∈ pre, ∃ l, s = .chunk l true ∧ l ≠ 0) (hlen : len ≠ 0) :
    ∀ pos, saveLoop fok pos (pre ++ .chunk len false :: rest) = .panicked := by
  induction pre with
  | nil => intro pos; simp [saveLoop, hlen]
  | cons s tl ih =>
    intro pos
    obtain ⟨l, hs, hl⟩ := hpre s (List.mem_cons_self s tl)
    subst hs
    simp only [List.cons_append, saveLoop, hl, if_neg, if_pos]
    exact ih (fun s hs => hpre s (List.mem_cons_of_mem _ hs)) (pos + l)

theorem saveLoop_cancelled_only_read_error (fok : Bool) :
    ∀ (steps : List StreamStep) (pos : Nat),
      saveLoop fok pos steps = .cancelled →
      ∃ pre rest, steps = pre ++ .readErr :: rest ∧
        ∀ s ∈ pre, ∃ l, s = .chunk l true ∧ l ≠ 0 := by
  intro steps
  induction steps with
  | nil =>
    intro pos h
    simp [saveLoop] at h
    cases fok <;> simp_all
  | cons s tl ih =>
    intro pos h
    cases s with
    | readErr =>
      exact ⟨[], tl, rfl, by simp⟩
    | chunk len wok =>
      by_cases hlen : len = 0
      · rw [saveLoop, if_pos hlen] at h
        cases fok <;> simp_all
      · cases wok with
        | false => rw [saveLoop, if_neg hlen] at h; simp at h
        | true =>
          rw [saveLoop, if_neg hlen, if_pos rfl] at h
          obtain ⟨pre, rest, heq, hpre⟩ := ih (pos + len) h
          refine ⟨.chunk len true :: pre, rest, by simp [heq], ?_⟩
          intro s hs
          rcases List.mem_cons.mp hs with h1 | h2
          · exact ⟨len, h1, hlen⟩
          · exact hpre s h2

theorem saveLoop_read_error (fok : Bool) (pre rest : List StreamStep)
    (hpre : ∀ s ∈ pre, ∃ l, s = .chunk l true ∧ l ≠ 0) :
    ∀ pos, saveLoop fok pos (pre ++ .readErr :: rest) = .cancelled := by
  induction pre with
  | nil => intro pos; rfl
  | cons s tl ih =>
    intro pos
    obtain ⟨l, hs, hl⟩ := hpre s (List.mem_cons_self s tl)
    subst hs
    simp only [List.cons_append, saveLoop, hl, if_neg, if_pos]
    exact ih (fun s hs => hpre s (List.mem_cons_of_mem _ hs)) (pos + l)

theorem lookup_updateAssoc {α : Type} (l : List (String × α)) (k : String)
    (v w : α) (h : List.lookup k l = some w) :
    List.lookup k (updateAssoc l k v) = some v := by
  induction l with
  | nil => simp [List.lookup] at h
  | cons p tl ih =>
    obtain ⟨a, b⟩ := p
    simp only [updateAssoc, List.map_cons]
    by_cases hk : a = k
    · subst hk
      rw [if_pos rfl]
      simp [List.lookup]
    · rw [if_neg hk]
      have hne : (k == a) = false := by
        simp only [beq_eq_false_iff_ne]
        exact fun he => hk he.symm
      simp only [List.lookup, hne] at h ⊢
      simpa [updateAssoc] using ih h

/-! ## Helper lemmas about prepare-upload sequences -/

theorem prepare_blocked (a : PrepareAttempt) (st : ServerState)
    (h : a.lockFree = false ∨ st.receive_session.isSome = true) :
    prepare_upload a st = (.error .SessionBlocked, st) := by
  rcases h with h | h
  · simp [prepare_upload, h]
  · simp [prepare_upload, h]

theorem runPrepares_blocked (as : List PrepareAttempt) :
    ∀ (st : ServerState), st.receive_session.isSome = true →
    runPrepares as st = (as.map fun _ => .error .SessionBlocked, st) := by
  induction as with
  | nil => intro st h; rfl
  | cons a tl ih =>
    intro st h
    simp [runPrepares, prepare_blocked a st (Or.inr h), ih st h]

/-- From a session-free state, one prepare-upload call either fails and
leaves the state session-free (every error path removes the installed
`Waiting` session, by the `Guard` or explicitly) or succeeds and leaves a
session installed. -/
theorem prepare_from_none (a : PrepareAttempt) (st : ServerState)
    (h : st.receive_session = none) :
    (isOkResult (prepare_upload a st).1 = false ∧
      (prepare_upload a st).2.receive_session = none) ∨
    (isOkResult (prepare_upload a st).1 = true ∧
      (prepare_upload a st).2.receive_session.isSome = true) := by
  by_cases hl : a.lockFree
  · simp only [prepare_upload, hl, h]
    by_cases he : a.files.isEmpty
    · simp [he, isOkResult, h]
    · simp only [he, if_false, not_true, if_neg, Option.isSome_none,
        Bool.false_eq_true]
      rcases hui : a.uiReply with _ | m
      · by_cases hq : st.settings.quick_save
        · by_cases hsel : (a.files.map (·.2)).isEmpty
          · simp [hq, hsel, isOkResult]
          · simp [hq, hsel, isOkResult]
        · simp [hq, isOkResult]
      · cases m with
        | Declined =>
          by_cases hq : st.settings.quick_save
          · by_cases hsel : (a.files.map (·.2)).isEmpty
            · simp [hq, hsel, isOkResult]
            · simp [hq, hsel, isOkResult]
          · simp [hq, isOkResult]
        | FilesSelected fs =>
          by_cases hq : st.settings.quick_save
          · by_cases hsel : (a.files.map (·.2)).isEmpty
            · simp [hq, hsel, isOkResult]
            · simp [hq, hsel, isOkResult]
          · by_cases hsel : fs.isEmpty
            · simp [hq, hsel, isOkResult]
            · simp [hq, hsel, isOkResult]
  · have hlf : a.lockFree = false := by simpa using hl
    simp [prepare_blocked a st (Or.inl hlf), isOkResult, h]

theorem countOk_errors {ε α β : Type} (e : ε) (l : List β) :
    countOk (l.map fun _ => (.error e : Except ε α)) = 0 := by
  induction l with
  | nil => rfl
  | cons b tl ih => simp [countOk, List.filter_cons, isOkResult]

theorem runPrepares_at_most_one (as : List PrepareAttempt) :
    ∀ (st : ServerState), st.receive_session = none →
    countOk (runPrepares as st).1 ≤ 1 := by
  induction as with
  | nil => intro st h; simp [runPrepares, countOk]
  | cons a tl ih =>
    intro st h
    rcases prepare_from_none a st h with ⟨hr, hs⟩ | ⟨hr, hs⟩
    · have htl := ih (prepare_upload a st).2 hs
      simpa [runPrepares, countOk, List.filter_cons, hr] using htl
    · have hb := runPrepares_blocked tl (prepare_upload a st).2 hs
      simp [runPrepares, hb, countOk, List.filter_cons, hr, countOk_errors]
      intro _
      rfl
/-! ## Claim C1 — IO error during upload streaming -/

/-- Claim C1 counterexample.  The claim says an IO error of the body stream
makes the upload endpoint respond `Cancelled` (HTTP 200), not
`SaveFileFailed` (500).  On a concrete valid upload whose stream fails
immediately, the handler does delete the partial file, but `save_file`'s
`Err(Cancelled)` is remapped by the post-stream `match` to `SaveFileFailed`,
whose status is 500 — not 200. -/
theorem upload_stream_error_counterexample :
    (upload "10.0.0.2" [("fileId", "F"), ("token", "tok")] [.readErr]
        true true exState false).result = .err .SaveFileFailed ∧
    (upload "10.0.0.2" [("fileId", "F"), ("token", "tok")] [.readErr]
        true true exState false).result ≠ .err .Cancelled ∧
    (upload "10.0.0.2" [("fileId", "F"), ("token", "tok")] [.readErr]
        true true exState false).deletedPartial = true ∧
    ReceiveError.SaveFileFailed.statusCode = 500 := by
  refine ⟨rfl, by decide, rfl, rfl⟩

/-- Claim C1 (amended).  For every upload request that passes validation
and whose body stream fails with an IO error mid-transfer, the handler
deletes the partially written file, but the endpoint responds
`SaveFileFailed` (HTTP 500), not `Cancelled` (200): the `Cancelled` error
produced inside the streaming closure is swallowed by the post-stream
`match`, which turns every save failure into `SaveFileFailed`. -/
theorem upload_stream_error_returns_500 (q : List (String × String))
    (pre rest : List StreamStep) (fok : Bool) (st : ServerState)
    (v2 : Bool) (sess : ReceiveSession) (fid tok : String)
    (rf : ReceivingFile)
    (hsess : st.receive_session = some sess)
    (hstatus : sess.status = .Sending)
    (hfid : List.lookup "fileId" q = some fid)
    (htok : List.lookup "token" q = some tok)
    (hsid : checkSessionId v2 q sess = none)
    (hfile : List.lookup fid sess.files = some rf)
    (htoken : rf.token = some tok)
    (hpre : ∀ s ∈ pre, ∃ l, s = .chunk l true ∧ l ≠ 0) :
    (upload sess.sender.ip q (pre ++ .readErr :: rest) true fok st v2).result
      = .err .SaveFileFailed ∧
    (upload sess.sender.ip q (pre ++ .readErr :: rest) true fok st
        v2).deletedPartial = true ∧
    ReceiveError.SaveFileFailed.statusCode = 500 ∧
    ReceiveError.Cancelled.statusCode = 200 := by
  have hsave : save_file true fok (pre ++ .readErr :: rest) = .cancelled := by
    simpa [save_file] using saveLoop_read_error fok pre rest hpre 0
  refine ⟨?_, ?_, rfl, rfl⟩ <;>
    simp [upload, hsess, hstatus, hfid, htok, hsid, hfile, htoken, hsave]

/-- Witness for C1's amended theorem on a concrete session and stream. -/
theorem upload_stream_error_returns_500_witness :
    (upload "10.0.0.2" [("fileId", "F"), ("token", "tok")]
        ([] ++ .readErr :: []) true true exState false).result
      = .err .SaveFileFailed := by
  exact (upload_stream_error_returns_500 [("fileId", "F"), ("token", "tok")]
    [] [] true exState false exSession "F" "tok"
    ⟨exFileDto, .Queue, some "tok"⟩ rfl rfl rfl rfl rfl rfl rfl
    (by simp)).1

/-! ## Claim C2 — route degradation for unknown versions -/

/-- Claim C2 counterexample.  The claim says every version string other
than "1.0" and "2.0" degrades to version 1.0 for route selection.  The
code's `route` checks only `version == "1.0"` and otherwise takes the v2
branch, so version "3.0" resolves to the v2 route, not the v1 route. -/
theorem route_unknown_version_not_v1 :
    ApiRoute.route .PrepareUpload "3.0" ≠ ApiRoute.route .PrepareUpload "1.0" ∧
    ApiRoute.route .PrepareUpload "3.0" = "/api/localsend/v2/prepare-upload" ∧
    ApiRoute.route .PrepareUpload "1.0" = "/api/localsend/v1/send-request" := by
  refine ⟨?_, rfl, rfl⟩
  decide

/-- Claim C2 (amended).  For every operation and every version string
other than "1.0" — in particular every unknown version — `route` and
`target_raw` produce the same path as for version "2.0": unknown versions
degrade to 2.0, not to 1.0. -/
theorem route_unknown_version_degrades_to_v2 (r : ApiRoute) (v : String)
    (h : v ≠ PROTOCOL_VERSION_1) :
    r.route v = r.route PROTOCOL_VERSION_2 ∧
    ∀ ip port https, r.target_raw ip port https v =
      r.target_raw ip port https PROTOCOL_VERSION_2 := by
  have h2 : PROTOCOL_VERSION_2 ≠ PROTOCOL_VERSION_1 := by decide
  constructor
  · simp [ApiRoute.route, h, h2]
  · intro ip port https
    simp [ApiRoute.target_raw, ApiRoute.route, h, h2]

/-- Witness for C2's amended theorem at the concrete version "3.0". -/
theorem route_unknown_version_degrades_to_v2_witness :
    ("3.0" ≠ PROTOCOL_VERSION_1) ∧
    ApiRoute.route .Upload "3.0" = ApiRoute.route .Upload PROTOCOL_VERSION_2 := by
  have h : ("3.0" : String) ≠ PROTOCOL_VERSION_1 := by decide
  exact ⟨h, (route_unknown_version_degrades_to_v2 .Upload "3.0" h).1⟩

/-! ## Claim C3 — prepare-upload concurrency gate -/

/-- Claim C3.  A prepare-upload attempt that finds the shared-state lock
contended, or a `ReceiveSession` already installed, fails with
`SessionBlocked` (mapped to HTTP 409) and leaves the shared state
unchanged; while a session is installed, every attempt of a sequence fails
with `SessionBlocked` and the state is untouched; and over any sequence of
attempts starting from a session-free state, at most one attempt succeeds
in creating a session. -/
theorem prepare_upload_mutual_exclusion :
    (∀ (a : PrepareAttempt) (st : ServerState),
       a.lockFree = false ∨ st.receive_session.isSome = true →
       prepare_upload a st = (.error .SessionBlocked, st)) ∧
    ReceiveError.SessionBlocked.statusCode = 409 ∧
    (∀ (as : List PrepareAttempt) (st : ServerState),
       st.receive_session.isSome = true →
       runPrepares as st = (as.map fun _ => .error .SessionBlocked, st)) ∧
    (∀ (as : List PrepareAttempt) (st : ServerState),
       st.receive_session = none → countOk (runPrepares as st).1 ≤ 1) :=
  ⟨prepare_blocked, rfl,
   fun as st h => runPrepares_blocked as st h,
   fun as st h => runPrepares_at_most_one as st h⟩

/-- Witness for C3 on concrete attempts and states. -/
theorem prepare_upload_mutual_exclusion_witness :
    prepare_upload exAttempt exStateEmpty
      = (.error .SessionBlocked, exStateEmpty) ∧
    runPrepares [exAttempt] exState
      = ([.error .SessionBlocked], exState) ∧
    countOk (runPrepares [exAttempt] exStateEmpty).1 ≤ 1 := by
  have h := prepare_upload_mutual_exclusion
  exact ⟨h.1 exAttempt exStateEmpty (Or.inl rfl),
         h.2.2.1 [exAttempt] exState rfl,
         h.2.2.2 [exAttempt] exStateEmpty rfl⟩

/-! ## Claim C4 — one-shot upload tokens -/

/-- Claim C4.  A validated upload with an issued `(file_id, token)` pair
succeeds, the accepted upload clears the file's stored token, and — while
the session is still alive — any further upload request for the same file
(including a replay with the identical token, whose stored counterpart is
now `none`) fails with `InvalidToken`, mapped to HTTP 403. -/
theorem upload_token_one_shot (q : List (String × String))
    (steps : List StreamStep) (cok fok : Bool) (st : ServerState) (v2 : Bool)
    (sess : ReceiveSession) (fid tok : String) (rf : ReceivingFile) (n : Nat)
    (hsess : st.receive_session = some sess)
    (hstatus : sess.status = .Sending)
    (hfid : List.lookup "fileId" q = some fid)
    (htok : List.lookup "token" q = some tok)
    (hsid : checkSessionId v2 q sess = none)
    (hfile : List.lookup fid sess.files = some rf)
    (htoken : rf.token = some tok)
    (hsave : save_file cok fok steps = .ok n) :
    (upload sess.sender.ip q steps cok fok st v2).result = .ok ∧
    (∀ sess',
       (upload sess.sender.ip q steps cok fok st v2).state.receive_session
         = some sess' →
       List.lookup fid sess'.files
         = some ⟨rf.file, FileStatus.Finished, none⟩ ∧
       sess'.status = .Sending ∧ sess'.sender = sess.sender ∧
       sess'.session_id = sess.session_id) ∧
    (∀ (st2 : ServerState) (sess2 : ReceiveSession)
       (q2 : List (String × String)) (steps2 : List StreamStep)
       (cok2 fok2 v2b : Bool) (tok2 : String) (rf2 : ReceivingFile),
       st2.receive_session = some sess2 → sess2.status = .Sending →
       List.lookup "fileId" q2 = some fid →
       List.lookup "token" q2 = some tok2 →
       checkSessionId v2b q2 sess2 = none →
       List.lookup fid sess2.files = some rf2 → rf2.token = none →
       (upload sess2.sender.ip q2 steps2 cok2 fok2 st2 v2b).result
         = .err .InvalidToken) ∧
    ReceiveError.InvalidToken.statusCode = 403 := by
  have hrf1 :
      List.lookup fid (updateAssoc sess.files fid
        ⟨rf.file, FileStatus.Sending, none⟩) =
      some ⟨rf.file, FileStatus.Sending, none⟩ :=
    lookup_updateAssoc _ _ _ _ hfile
  have hrf2 :
      List.lookup fid (updateAssoc (updateAssoc sess.files fid
          ⟨rf.file, FileStatus.Sending, none⟩) fid
          ⟨rf.file, FileStatus.Finished, none⟩) =
      some ⟨rf.file, FileStatus.Finished, none⟩ :=
    lookup_updateAssoc _ _ _ _ hrf1
  have hout : upload sess.sender.ip q steps cok fok st v2 =
      ⟨.ok,
       { settings := st.settings,
         receive_session :=
           if ((updateAssoc (updateAssoc sess.files fid
                  ⟨rf.file, FileStatus.Sending, none⟩) fid
                  ⟨rf.file, FileStatus.Finished, none⟩).all
               fun p => p.2.status == FileStatus.Finished ||
                 p.2.status == FileStatus.Failed) = true
           then none
           else some { session_id := sess.session_id,
                       status := .Sending,
                       sender := sess.sender,
                       files := updateAssoc (updateAssoc sess.files fid
                         ⟨rf.file, FileStatus.Sending, none⟩) fid
                         ⟨rf.file, FileStatus.Finished, none⟩,
                       destination_directory := sess.destination_directory,
                       progress_tx := sess.progress_tx } },
       false⟩ := by
    simp [upload, hsess, hstatus, hfid, htok, hsid, hfile, htoken, hsave]
  refine ⟨by rw [hout], ?_, ?_, rfl⟩
  · intro sess' h
    rw [hout] at h
    dsimp only at h
    split at h
    · exact absurd h (by simp)
    · injection h with h
      subst h
      exact ⟨hrf2, rfl, rfl, rfl⟩
  · intro st2 sess2 q2 steps2 cok2 fok2 v2b tok2 rf2 h1 h2 h3 h4 h5 h6 h7
    simp [upload, h1, h2, h3, h4, h5, h6, h7]

/-- Witness for C4: a successful concrete upload of file "F", then a replay
of the identical request against the post-upload state is rejected with
`InvalidToken`. -/
theorem upload_token_one_shot_witness :
    (upload "10.0.0.2" [("fileId", "F"), ("token", "tok")] [.chunk 5 true]
        true true exState2 false).result = .ok ∧
    (upload "10.0.0.2" [("fileId", "F"), ("token", "tok")] [] true true
        exStatePost false).result = .err .InvalidToken := by
  have h := upload_token_one_shot [("fileId", "F"), ("token", "tok")]
    [.chunk 5 true] true true exState2 false exSession2 "F" "tok"
    ⟨exFileDto, .Queue, some "tok"⟩ 5 rfl rfl rfl rfl rfl rfl rfl rfl
  exact ⟨h.1, h.2.2.1 exStatePost exSessionPost
    [("fileId", "F"), ("token", "tok")] [] true true false "tok"
    ⟨exFileDto, .Finished, none⟩ rfl rfl rfl rfl rfl rfl rfl⟩

/-! ## Claim C5 — DTO serde round-trips -/

/-- Claim C5 counterexample.  The claim says any `FileDto` round-trips
through JSON with the same `FileType`.  `FileType::Image` serializes to
the string "image", which the deserializer parses as a MIME type; "image"
has no slash, the parse fails, and the fallback `Other` is returned, so
the round-trip changes the file type. -/
theorem fileDto_roundtrip_counterexample :
    FileDto.deserialize (FileDto.serialize
      { id := "F", file_name := "a.png", size := ⟨5, by decide⟩,
        file_type := .Image, hash := none, preview := none }) ≠
    some { id := "F", file_name := "a.png", size := ⟨5, by decide⟩,
           file_type := .Image, hash := none, preview := none } := by
  decide

/-- Claim C5 (amended).  `MulticastDto` and `RegisterDto` round-trip
exactly through serialization (absent optional fields come back as
`none`); a `FileDto` round-trips in every field except `file_type`, which
always deserializes to `Other`, because the serializer emits the lowercase
variant name while the deserializer expects a MIME string. -/
theorem dto_serde_roundtrip :
    (∀ d : MulticastDto, MulticastDto.deserialize d.serialize = some d) ∧
    (∀ d : RegisterDto, RegisterDto.deserialize d.serialize = some d) ∧
    (∀ f : FileDto, FileDto.deserialize f.serialize =
      some { f with file_type := FileType.Other }) :=
  ⟨mc_roundtrip, reg_roundtrip, filedto_roundtrip⟩

/-! ## Claim C6 — scan loop error handling -/

/-- Claim C6 counterexample.  The claim says a datagram that fails to
parse is skipped and scanning continues, while a receive IO error aborts
the scan.  The code does the opposite: `serde_json::from_slice(..)?`
aborts the scan on the first unparsable datagram, while a `try_recv_from`
error takes the sleep-and-retry branch, after which scanning continues
and still collects later peers. -/
theorem scan_error_flow_counterexample :
    scan "me" [.datagram (some []) "10.0.0.2" DEFAULT_PORT] [] = .error () ∧
    scan "me" [.recvErr, .datagram (some goodRegObj) "10.0.0.2" DEFAULT_PORT] []
      = .ok [goodPeerDevice] := by
  constructor
  · rfl
  · rfl

/-- Claim C6 (amended).  In the scan loop, a receive IO error is treated
as an empty poll — sleep 100 ms and continue with the next poll — whereas
a datagram whose payload fails to parse as a `RegisterDto` short-circuits
the whole scan with an error. -/
theorem scan_error_flow (fp : String) (evs : List RecvEvent)
    (devices : List Device) (payload : Option JsonObj) (ip : String)
    (port : Fin 65536) (hbad : payload.bind RegisterDto.deserialize = none) :
    scan fp (.recvErr :: evs) devices = scan fp evs devices ∧
    scan fp (.datagram payload ip port :: evs) devices = .error () := by
  constructor
  · rfl
  · simp [scan, scanStep, hbad]

/-- Witness for C6's amended theorem on a concrete unparsable payload. -/
theorem scan_error_flow_witness :
    ((some ([] : JsonObj)).bind RegisterDto.deserialize = none) ∧
    scan "me" [RecvEvent.recvErr] [] = scan "me" [] [] := by
  have h : (some ([] : JsonObj)).bind RegisterDto.deserialize = none := by
    decide
  exact ⟨h, (scan_error_flow "me" [] [] (some []) "ip" DEFAULT_PORT h).1⟩

/-! ## Claim C7 — send_announcement is best-effort -/

/-- Claim C7 counterexample.  The claim says `send_announcement` never
panics and returns normally on every send outcome.  The send result is
swallowed with `.ok()`, but the following `assert!(size == Some(len))`
panics on a socket error (size `None`) and on a partial send. -/
theorem send_announcement_panics_on_error :
    send_announcement 5 .sockErr = none ∧
    send_announcement 5 (.sent 3) = none ∧
    send_announcement 5 (.sent 5) = some () := by
  exact ⟨rfl, by decide, rfl⟩

/-- Claim C7 (amended).  `send_announcement` swallows the error value of
the UDP send, but then asserts that the full message was sent: it returns
normally exactly when the send reported the whole message length, and
panics on a socket error or partial send. -/
theorem send_announcement_returns_iff_full_send (len : Nat) (o : SendOutcome) :
    (send_announcement len o).isSome ↔ o = .sent len := by
  cases o with
  | sent n => simp [send_announcement]
  | sockErr => simp [send_announcement]

/-! ## Claim C8 — MulticastDto::v2 announce flags -/

/-- Claim C8 counterexample.  The claim says `MulticastDto::v2` sets the
`announce` flag and that both `announce` and `announcement` are populated
in the serialized datagram.  The constructor stores its flag argument in
`announcement` and leaves `announce` as `None`, which serializes as
`null`. -/
theorem multicast_v2_announce_not_set :
    (MulticastDto.v2 "Orange" none .Headless "fp" DEFAULT_PORT true).announce
      = none ∧
    List.lookup "announce"
      (MulticastDto.v2 "Orange" none .Headless "fp" DEFAULT_PORT true).serialize
      = some Json.null := by
  exact ⟨rfl, by decide⟩

/-- Claim C8 (amended).  `MulticastDto::v2` populates `version = "2.0"`,
`port`, `protocol = Http` and the `announcement` flag; the `announce`
field stays `None`. -/
theorem multicast_v2_fields (a : String) (dm : Option String)
    (dt : DeviceType) (fp : String) (port : Fin 65536) (ann : Bool) :
    (MulticastDto.v2 a dm dt fp port ann).version = some PROTOCOL_VERSION_2 ∧
    (MulticastDto.v2 a dm dt fp port ann).port = some port ∧
    (MulticastDto.v2 a dm dt fp port ann).protocol = some ProtocolType.Http ∧
    (MulticastDto.v2 a dm dt fp port ann).announcement = some ann ∧
    (MulticastDto.v2 a dm dt fp port ann).announce = none :=
  ⟨rfl, rfl, rfl, rfl, rfl⟩

/-! ## Claim C9 — sessionId validation on upload -/

/-- Claim C9.  A v2 upload request that passes the earlier checks but
omits the `sessionId` query parameter fails with `InvalidParameters`
(HTTP 400); `InvalidSessionId` (HTTP 403) is returned exactly when a
`sessionId` is present but differs from the active session's id; and a v1
upload never inspects `sessionId`: its outcome depends only on the
`fileId` and `token` entries of the query. -/
theorem upload_sessionId_validation :
    (∀ (q : List (String × String)) (steps : List StreamStep)
       (cok fok : Bool) (st : ServerState) (sess : ReceiveSession)
       (fid tok : String),
       st.receive_session = some sess → sess.status = .Sending →
       List.lookup "fileId" q = some fid →
       List.lookup "token" q = some tok →
       List.lookup "sessionId" q = none →
       (upload sess.sender.ip q steps cok fok st true).result
         = .err .InvalidParameters ∧
       ReceiveError.InvalidParameters.statusCode = 400) ∧
    (∀ (q : List (String × String)) (steps : List StreamStep)
       (cok fok : Bool) (st : ServerState) (sess : ReceiveSession)
       (fid tok sid : String),
       st.receive_session = some sess → sess.status = .Sending →
       List.lookup "fileId" q = some fid →
       List.lookup "token" q = some tok →
       List.lookup "sessionId" q = some sid → sid ≠ sess.session_id →
       (upload sess.sender.ip q steps cok fok st true).result
         = .err .InvalidSessionId ∧
       ReceiveError.InvalidSessionId.statusCode = 403) ∧
    (∀ (ip : String) (q q' : List (String × String)) (steps : List StreamStep)
       (cok fok : Bool) (st : ServerState),
       List.lookup "fileId" q = List.lookup "fileId" q' →
       List.lookup "token" q = List.lookup "token" q' →
       upload ip q steps cok fok st false = upload ip q' steps cok fok st false) := by
  refine ⟨?_, ?_, ?_⟩
  · intro q steps cok fok st sess fid tok hsess hstatus hfid htok hsid
    refine ⟨?_, rfl⟩
    simp [upload, checkSessionId, hsess, hstatus, hfid, htok, hsid]
  · intro q steps cok fok st sess fid tok sid hsess hstatus hfid htok hsid hne
    refine ⟨?_, rfl⟩
    simp [upload, checkSessionId, hsess, hstatus, hfid, htok, hsid, hne]
  · intro ip q q' steps cok fok st hq1 hq2
    simp [upload, checkSessionId, hq1, hq2]

/-- Witness for C9 on a concrete v2 session: a request without
`sessionId` is rejected 400, one with a wrong `sessionId` is rejected
403. -/
theorem upload_sessionId_validation_witness :
    (upload "10.0.0.2" [("fileId", "F"), ("token", "tok")] [] true true
        exState true).result = .err .InvalidParameters ∧
    (upload "10.0.0.2" [("fileId", "F"), ("token", "tok"),
        ("sessionId", "WRONG")] [] true true exState true).result
      = .err .InvalidSessionId := by
  constructor
  · exact (upload_sessionId_validation.1 [("fileId", "F"), ("token", "tok")]
      [] true true exState exSession "F" "tok" rfl rfl rfl rfl rfl).1
  · exact (upload_sessionId_validation.2.1 [("fileId", "F"), ("token", "tok"),
      ("sessionId", "WRONG")] [] true true exState exSession "F" "tok" "WRONG"
      rfl rfl rfl rfl rfl (by decide)).1

/-! ## Claim C10 — write failures panic; deletion only for read errors -/

/-- Claim C10.  In the streaming save loop, a failure of the write to the
destination file is `.unwrap()`ed and panics the task instead of taking an
error path; and the delete-partial-file branch (`cancelled`) is reachable
only when the request body stream itself fails: whenever the save loop
ends in `cancelled`, the consumed steps are successful writes followed by
a read error. -/
theorem save_file_write_failure_panics :
    (∀ (pre : List StreamStep) (len : Nat) (rest : List StreamStep)
       (fok : Bool),
       (∀ s ∈ pre, ∃ l, s = .chunk l true ∧ l ≠ 0) → len ≠ 0 →
       save_file true fok (pre ++ .chunk len false :: rest) = .panicked) ∧
    (∀ (steps : List StreamStep) (cok fok : Bool),
       save_file cok fok steps = .cancelled →
       ∃ pre rest, steps = pre ++ .readErr :: rest ∧
         ∀ s ∈ pre, ∃ l, s = .chunk l true ∧ l ≠ 0) := by
  constructor
  · intro pre len rest fok hpre hlen
    exact saveLoop_write_failure_panics fok pre len rest hpre hlen 0
  · intro steps cok fok h
    cases cok with
    | false => simp [save_file] at h
    | true => exact saveLoop_cancelled_only_read_error fok steps 0 h

/-- Witness for C10 on concrete streams: a failing write panics, and a
stream consisting of a single read error satisfies the characterization of
the delete branch. -/
theorem save_file_write_failure_panics_witness :
    save_file true true [.chunk 1 false] = .panicked ∧
    (∃ pre rest, ([StreamStep.readErr] : List StreamStep) =
        pre ++ .readErr :: rest ∧
      ∀ s ∈ pre, ∃ l, s = .chunk l true ∧ l ≠ 0) := by
  constructor
  · exact save_file_write_failure_panics.1 [] 1 [] true (by simp) (by decide)
  · exact save_file_write_failure_panics.2 [.readErr] true true rfl

end LocalSend
